import Mathlib

/-!
# Verification of the Personal Finance Tracker API (`src/main.py`)

A shallow embedding of the Flask/SQLAlchemy finance-tracker backend.
The persistent stores (the `user`, `token_blocklist` and `transaction`
tables) become lists of records; each HTTP endpoint becomes a pure
function from the database state (plus the request data) to a response
`(Json × Nat)` — mirroring Flask's `return body, status` — and the
successor state.

JWT handling: a `Token` value stands for a bearer token whose signature
has already verified (we quantify only over tokens the app itself signed;
a forged token is rejected before any handler runs).  `jwt_required`
checks expiry and then the blocklist loader `check_if_token_revoked`,
exactly as flask-jwt-extended does with the registered
`token_in_blocklist_loader`.
-/

namespace FinanceTracker

/-- A calendar date (we model the `DateTime` columns at day granularity,
which is what the code's defaults (`datetime.date.today`) and the report
queries (`extract year/month`) use). -/
structure DateYMD where
  year : Int
  month : Int
  day : Int
deriving DecidableEq, Repr

/-- Lexicographic comparison of dates, mirroring SQL `date >= / <=`. -/
def DateYMD.le (a b : DateYMD) : Bool :=
  a.year < b.year ∨ (a.year = b.year ∧
    (a.month < b.month ∨ (a.month = b.month ∧ a.day ≤ b.day)))

/-- Zero-pad to two digits, for ISO dump of dates. -/
def pad2 (n : Int) : String :=
  if 0 ≤ n ∧ n < 10 then "0" ++ toString n else toString n

/-- ISO-style dump of a date, as `fields.DateTime` dumps the stored value. -/
def DateYMD.iso (d : DateYMD) : String :=
  toString d.year ++ "-" ++ pad2 d.month ++ "-" ++ pad2 d.day ++ "T00:00:00"

/-- Row of the `user` table (`class User`). -/
structure UserRec where
  user_id : Int
  name : String
  email : String
  password : String
  created_at : DateYMD
deriving DecidableEq, Repr

/-- Row of the `transaction` table (`class Transaction`). -/
structure TransactionRec where
  id : Int
  user_id : Int
  amount : Int
  type : String
  category : String
  date : DateYMD
  note : String
deriving DecidableEq, Repr

/-- Database state: the three tables.  The `token_blocklist` table is the
list of revoked `jti` strings (its integer PK plays no role). -/
structure DBState where
  users : List UserRec
  blocklist : List String
  transactions : List TransactionRec
deriving DecidableEq, Repr

/-- A decoded, signature-checked JWT: identity (the email), unique token
id `jti`, and expiry instant (`JWT_ACCESS_TOKEN_EXPIRES`, one hour after
issuance). -/
structure Token where
  identity : String
  jti : String
  exp : Int
deriving DecidableEq, Repr

/-- JSON values, the bodies that Flask serializes from the returned dicts. -/
inductive Json where
  | str (s : String)
  | num (n : Int)
  | arr (xs : List Json)
  | obj (fields : List (String × Json))

/-- The `check_if_token_revoked` (the `token_in_blocklist_loader`):
`SELECT ... FROM token_blocklist WHERE jti = :jti` has a row. -/
def check_if_token_revoked (st : DBState) (jti : String) : Bool :=
  ((st.blocklist.filter (fun j => j = jti)).head?).isSome

/-- Outcome of the `@jwt_required()` guard. -/
inductive AuthResult where
  | ok (email : String)
  | expired
  | revoked
deriving DecidableEq, Repr

/-- The `@jwt_required()` guard at instant `now`: reject an expired
token, then consult the blocklist loader; otherwise expose the identity
(`get_jwt_identity()`). -/
def jwt_required (st : DBState) (now : Int) (tok : Token) : AuthResult :=
  if tok.exp ≤ now then .expired
  else if check_if_token_revoked st tok.jti then .revoked
  else .ok tok.identity

/-- flask-jwt-extended's default 401 body for an expired token. -/
def expiredResp : Json × Nat := (.obj [("msg", .str "Token has expired")], 401)

/-- flask-jwt-extended's default 401 body for a blocklisted token. -/
def revokedResp : Json × Nat := (.obj [("msg", .str "Token has been revoked")], 401)

/-- The app's `errorhandler(500)` body (an uncaught exception in a
handler surfaces as this generic 500). -/
def serverErrorResp : Json × Nat := (.obj [("error", .str "Internal server error")], 500)

/-- The `db.select(User).where(User.email == email) ... .scalar()`:
first user row with that email, if any. -/
def findUserByEmail (st : DBState) (email : String) : Option UserRec :=
  (st.users.filter (fun u => u.email = email)).head?

/-- The `Logout.post`: `@jwt_required()`, then insert the token's `jti` into
`token_blocklist` and return 200.  (No duplicate check: the guard itself
is what keeps a revoked token from reaching the insert again.) -/
def logout (st : DBState) (now : Int) (tok : Token) : (Json × Nat) × DBState :=
  match jwt_required st now tok with
  | .expired => (expiredResp, st)
  | .revoked => (revokedResp, st)
  | .ok _ =>
      ((.obj [("message", .str "successfully logged out")], 200),
       { st with blocklist := st.blocklist ++ [tok.jti] })

/-! ## Marshmallow schemas

A request body is modelled as a typed record of optional fields: `none`
means the key is absent from the JSON.  `id` and `user_id` are declared
`dump_only` in `TransactionSchema`; marshmallow treats a `dump_only`
field supplied on load as an unknown field (error `Unknown field.`), as
it does any key not declared in the schema (`unknown` collects the names
of such extra keys). -/

/-- A JSON body sent to `add_transaction` / `edit_transaction`. -/
structure TxPayload where
  amount : Option Int := none
  type : Option String := none
  category : Option String := none
  date : Option DateYMD := none
  note : Option String := none
  id : Option Int := none
  user_id : Option Int := none
  unknown : List String := []
deriving DecidableEq, Repr

/-- The `transaction_schema.validate(data)` (and `partial = True` when
`required = false`): the list of field errors, one `(field, message)`
pair per failure.  `amount` uses `validate.Range(min = 1)` with the
custom message; `type` uses `validate.OneOf(["income", "expense"])`;
`category` is required with no validator; `date` and `note` have load
defaults and are never required. -/
def txFieldErrors (required : Bool) (p : TxPayload) : List (String × String) :=
  (match p.amount with
   | none => if required then [("amount", "Missing data for required field.")] else []
   | some a => if a < 1 then [("amount", "amount must be positive")] else [])
  ++ (match p.type with
   | none => if required then [("type", "Missing data for required field.")] else []
   | some t =>
       if t = "income" ∨ t = "expense" then []
       else [("type", "Must be one of: income, expense.")])
  ++ (match p.category with
   | none => if required then [("category", "Missing data for required field.")] else []
   | some _ => [])
  ++ (match p.id with
   | none => [] | some _ => [("id", "Unknown field.")])
  ++ (match p.user_id with
   | none => [] | some _ => [("user_id", "Unknown field.")])
  ++ p.unknown.map (fun k => (k, "Unknown field."))

/-- Serialize a marshmallow error dict as the handlers return it. -/
def errorsJson (es : List (String × String)) : Json :=
  .obj (es.map fun e => (e.1, Json.arr [Json.str e.2]))

/-- The `{"errors": ...}, 400` response the handlers build. -/
def validationResp (es : List (String × String)) : Json × Nat :=
  (.obj [("errors", errorsJson es)], 400)

/-- The `transaction_schema.dump(t)`: every declared field; `id` and
`user_id` are `dump_only` so they DO appear in the dump. -/
def txDump (t : TransactionRec) : Json :=
  .obj [("id", .num t.id), ("user_id", .num t.user_id),
        ("amount", .num t.amount), ("type", .str t.type),
        ("category", .str t.category), ("date", .str t.date.iso),
        ("note", .str t.note)]

/-- A JSON body sent to `register`. -/
structure UserPayload where
  name : Option String := none
  email : Option String := none
  password : Option String := none
  unknown : List String := []
deriving DecidableEq, Repr

/-- Approximation of marshmallow's `validate.Email()` regex: the claims
under verification never depend on which strings count as well-formed
email addresses, only that some do; we keep the one structural property
every variant of the regex enforces. -/
def emailFormatOk (s : String) : Bool := s.data.contains '@'

/-- The `user_schema.validate(data)`: `name`, `email`, `password` required,
`email` additionally checked against `validate.Email()`; `user_id` and
`created_at` are `dump_only`, and any extra key is unknown. -/
def userFieldErrors (p : UserPayload) : List (String × String) :=
  (match p.name with
   | none => [("name", "Missing data for required field.")]
   | some _ => [])
  ++ (match p.email with
   | none => [("email", "Missing data for required field.")]
   | some e => if emailFormatOk e then [] else [("email", "Not a valid email address.")])
  ++ (match p.password with
   | none => [("password", "Missing data for required field.")]
   | some _ => [])
  ++ p.unknown.map (fun k => (k, "Unknown field."))

/-- The `user_schema.dump(u)`: public fields only (`password` is `load_only`
and never dumped). -/
def userDump (u : UserRec) : Json :=
  .obj [("user_id", .num u.user_id), ("name", .str u.name),
        ("email", .str u.email), ("created_at", .str u.created_at.iso)]

/-! ## Endpoints -/

/-- The `Register.post`.  `hash` stands for `generate_password_hash` (salted,
so not a pure function of the password alone; the claims never inspect
it).  `nextId` is the autoincrement PK the insert would receive, `today`
feeds the `created_at` column default.

The handler performs no duplicate-email check: the `unique = True`
constraint on `user.email` makes `db.session.commit()` raise
`IntegrityError` when a row with that email exists; the exception is
uncaught, the insert is rolled back, and the client sees the generic
500 from `errorhandler(500)`. -/
def register (st : DBState) (p : UserPayload) (hash : String → String)
    (nextId : Int) (today : DateYMD) : (Json × Nat) × DBState :=
  let es := userFieldErrors p
  if es ≠ [] then (validationResp es, st)
  else match p.name, p.email, p.password with
  | some nm, some em, some pw =>
      if st.users.any (fun u => u.email = em) then (serverErrorResp, st)
      else
        let u : UserRec := ⟨nextId, nm, em, hash pw, today⟩
        ((userDump u, 201), { st with users := st.users ++ [u] })
  | _, _, _ => (serverErrorResp, st)

/-- The `AddTransaction.post`: validate, look up the caller's `User` row by
the token identity, insert a `Transaction` owned by `user.user_id` built
from the body (`date` defaults to today and `note` to `"NA"` via the
column defaults), and return its dump with 201.  `newId` is the
autoincrement PK.  The final catch-all arm is unreachable when
validation passed (the three fields are then present); a `None` user
(identity no longer in the table) makes `user.user_id` raise
`AttributeError`, surfacing as the generic 500. -/
def add_transaction (st : DBState) (now : Int) (tok : Token) (p : TxPayload)
    (today : DateYMD) (newId : Int) : (Json × Nat) × DBState :=
  match jwt_required st now tok with
  | .expired => (expiredResp, st)
  | .revoked => (revokedResp, st)
  | .ok email =>
      let es := txFieldErrors true p
      if es ≠ [] then (validationResp es, st)
      else match findUserByEmail st email with
      | none => (serverErrorResp, st)
      | some u =>
          match p.amount, p.type, p.category with
          | some a, some ty, some c =>
              let t : TransactionRec :=
                ⟨newId, u.user_id, a, ty, c, p.date.getD today, p.note.getD "NA"⟩
              ((txDump t, 201), { st with transactions := st.transactions ++ [t] })
          | _, _, _ => (serverErrorResp, st)

/-- The shared 404 body of `edit_transaction` and `delete_transaction`. -/
def notFoundResp : Json × Nat :=
  (.obj [("error", .str "transaction not found for this id or for current user")], 404)

/-- The `SELECT ... FROM transaction WHERE id = :tid AND user_id = :uid`,
`.scalar()`: the first matching row, if any.  The ownership check is
folded into the lookup itself. -/
def findOwnedTx (st : DBState) (tid uid : Int) : Option TransactionRec :=
  (st.transactions.filter (fun t => t.id = tid ∧ t.user_id = uid)).head?

/-- Replace the first element satisfying `p` by its image under `f`
(the ORM mutates the single row object the query returned). -/
def updateFirst (p : α → Bool) (f : α → α) : List α → List α
  | [] => []
  | x :: xs => if p x then f x :: xs else x :: updateFirst p f xs

/-- Drop the first element satisfying `p` (`db.session.delete` on the
row object the query returned). -/
def removeFirst (p : α → Bool) : List α → List α
  | [] => []
  | x :: xs => if p x then xs else x :: removeFirst p xs

/-- The `for key, value in data.items(): setattr(transaction, key, value)`
loop: every key present in the body overwrites that attribute, absent
keys leave the row untouched.  The `id` / `user_id` arms are dead code
once validation passed (they are rejected as unknown fields) but mirror
what the loop would do with them. -/
def applyPayload (t : TransactionRec) (p : TxPayload) : TransactionRec :=
  { t with
    id := p.id.getD t.id,
    user_id := p.user_id.getD t.user_id,
    amount := p.amount.getD t.amount,
    type := p.type.getD t.type,
    category := p.category.getD t.category,
    date := p.date.getD t.date,
    note := p.note.getD t.note }

/-- The `EditTransaction.patch`: validate with `partial = True` (before the
user lookup), fetch the row by `id AND user_id`, 404 if absent, else
apply the provided fields and return the updated dump with 200. -/
def edit_transaction (st : DBState) (now : Int) (tok : Token) (tid : Int)
    (p : TxPayload) : (Json × Nat) × DBState :=
  match jwt_required st now tok with
  | .expired => (expiredResp, st)
  | .revoked => (revokedResp, st)
  | .ok email =>
      let es := txFieldErrors false p
      if es ≠ [] then (validationResp es, st)
      else match findUserByEmail st email with
      | none => (serverErrorResp, st)
      | some u =>
          match findOwnedTx st tid u.user_id with
          | none => (notFoundResp, st)
          | some t =>
              let txs := updateFirst (fun t => t.id = tid ∧ t.user_id = u.user_id)
                (fun t => applyPayload t p) st.transactions
              ((txDump (applyPayload t p), 200), { st with transactions := txs })

/-- The `DeleteTransaction.delete`: fetch by `id AND user_id`, 404 if
absent, else delete the row and return the confirmation message. -/
def delete_transaction (st : DBState) (now : Int) (tok : Token) (tid : Int) :
    (Json × Nat) × DBState :=
  match jwt_required st now tok with
  | .expired => (expiredResp, st)
  | .revoked => (revokedResp, st)
  | .ok email =>
      match findUserByEmail st email with
      | none => (serverErrorResp, st)
      | some u =>
          match findOwnedTx st tid u.user_id with
          | none => (notFoundResp, st)
          | some _ =>
              let txs := removeFirst (fun t => t.id = tid ∧ t.user_id = u.user_id)
                st.transactions
              ((.obj [("message", .str "transaction deleted successfully")], 200),
               { st with transactions := txs })

/-- Query-string arguments of `GetTransactions.get`; `page` and
`per_page` default to 1 and 4 via `request.args.get`, the filters are
absent (`None`) when not supplied. -/
structure ListArgs where
  page : Int := 1
  per_page : Int := 4
  type : Option String := none
  category : Option String := none
  start_date : Option DateYMD := none
  end_date : Option DateYMD := none
deriving DecidableEq, Repr

/-- The filter chain of `GetTransactions.get`: base query scoped to the
owner, then one `WHERE` per truthy filter (`if type:` etc. skips both a
missing parameter and an empty string, which is falsy in Python);
`start_date` / `end_date` are inclusive bounds on the date column. -/
def txQuery (st : DBState) (uid : Int) (args : ListArgs) : List TransactionRec :=
  let q := st.transactions.filter (fun t => t.user_id = uid)
  let q := match args.type with
    | none => q
    | some s => if s = "" then q else q.filter (fun t => t.type = s)
  let q := match args.category with
    | none => q
    | some s => if s = "" then q else q.filter (fun t => t.category = s)
  let q := match args.start_date with
    | none => q
    | some d => q.filter (fun t => DateYMD.le d t.date)
  let q := match args.end_date with
    | none => q
    | some d => q.filter (fun t => DateYMD.le t.date d)
  q

/-- The fields of a flask-sqlalchemy `Pagination` object the handler
reads. -/
structure Paging where
  items : List TransactionRec
  total : Nat
  page : Int
  pages : Nat
  per_page : Int
deriving DecidableEq, Repr

/-- The `db.paginate(query, page, per_page, error_out = False)`:
with `error_out` false an out-of-range request never aborts — a `page`
below 1 falls back to 1, a `per_page` below 1 falls back to 20, and a
page past the end simply yields no items (`LIMIT/OFFSET` beyond the
rowcount).  `total` is the full count and `pages = ceil(total/per_page)`
(0 when the query is empty). -/
def paginate (l : List TransactionRec) (page per_page : Int) : Paging :=
  let page := if page < 1 then 1 else page
  let per_page := if per_page < 1 then 20 else per_page
  let k := per_page.toNat
  { items := (l.drop ((page - 1).toNat * k)).take k,
    total := l.length,
    page := page,
    pages := (l.length + k - 1) / k,
    per_page := per_page }

/-- The `GetTransactions.get`: scope to the caller, apply filters, paginate,
dump the page items. -/
def get_transactions (st : DBState) (now : Int) (tok : Token) (args : ListArgs) :
    (Json × Nat) × DBState :=
  match jwt_required st now tok with
  | .expired => (expiredResp, st)
  | .revoked => (revokedResp, st)
  | .ok email =>
      match findUserByEmail st email with
      | none => (serverErrorResp, st)
      | some u =>
          let pg := paginate (txQuery st u.user_id args) args.page args.per_page
          ((.obj [("transactions", .arr (pg.items.map txDump)),
                  ("total", .num (pg.total : Int)),
                  ("page", .num pg.page),
                  ("pages", .num (pg.pages : Int)),
                  ("per_page", .num pg.per_page)], 200), st)

/-- The `SELECT SUM(amount) ...` over the matched rows: SQL `SUM` of no rows
is `NULL` (`scalar()` returns `None`), otherwise the sum. -/
def sqlSum (l : List Int) : Option Int :=
  match l with
  | [] => none
  | _ => some l.sum

/-- The `... .scalar() or 0` idiom: `None` becomes 0; a numeric sum `v`
stays `v` (`v or 0` is `v` when truthy and `0` when `v = 0`, numerically
`v` either way). -/
def orZero (o : Option Int) : Int := o.getD 0

/-- The rows of `user` in the given calendar month with the given type:
`WHERE user_id = :uid AND type = :ty AND extract(year, date) = :year
AND extract(month, date) = :month`. -/
def monthTypeRows (st : DBState) (uid : Int) (ty : String) (year month : Int) :
    List TransactionRec :=
  st.transactions.filter
    (fun t => t.user_id = uid ∧ t.type = ty ∧ t.date.year = year ∧ t.date.month = month)

/-- The `MonthlySummary.get`: two aggregate queries (income, expense) over
the caller's rows in the requested year/month (both default to today's
at the call site), `balance = income - expense`. -/
def monthly_summary (st : DBState) (now : Int) (tok : Token) (year month : Int) :
    (Json × Nat) × DBState :=
  match jwt_required st now tok with
  | .expired => (expiredResp, st)
  | .revoked => (revokedResp, st)
  | .ok email =>
      match findUserByEmail st email with
      | none => (serverErrorResp, st)
      | some u =>
          let income := orZero (sqlSum ((monthTypeRows st u.user_id "income" year month).map (·.amount)))
          let expense := orZero (sqlSum ((monthTypeRows st u.user_id "expense" year month).map (·.amount)))
          ((.obj [("monthly summary", .str (toString year ++ " - " ++ toString month)),
                  ("income", .num income),
                  ("expense", .num expense),
                  ("balance", .num (income - expense))], 200), st)

/-- The `CategoryBreakdown.get`: rows of the caller in the period, grouped
by category, each group summed (income and expense mixed, as the code
does); the group order is the backend's, modelled as order of first
appearance. -/
def category_breakdown (st : DBState) (now : Int) (tok : Token) (year month : Int) :
    (Json × Nat) × DBState :=
  match jwt_required st now tok with
  | .expired => (expiredResp, st)
  | .revoked => (revokedResp, st)
  | .ok email =>
      match findUserByEmail st email with
      | none => (serverErrorResp, st)
      | some u =>
          let period := st.transactions.filter
            (fun t => t.user_id = u.user_id ∧ t.date.year = year ∧ t.date.month = month)
          let cats := (period.map (·.category)).eraseDups
          let breakdown := cats.map (fun c =>
            Json.obj [("category", .str c),
                      ("total", .num (((period.filter (fun t => t.category = c)).map (·.amount)).sum))])
          ((.obj [("month", .str (toString year ++ " - " ++ toString month)),
                  ("category breakdown", .arr breakdown)], 200), st)

/-! ## The request step relation

For the temporal claim we need quantification over arbitrary later
requests: `Op` enumerates every endpoint of the API with its inputs, and
`applyOp` is the state transition the request causes (its response is
discarded). -/

/-- One incoming HTTP request, with everything that parametrises its
handler. -/
inductive Op where
  | opRegister (p : UserPayload) (hash : String → String) (nextId : Int) (today : DateYMD)
  | opLogout (now : Int) (tok : Token)
  | opAdd (now : Int) (tok : Token) (p : TxPayload) (today : DateYMD) (newId : Int)
  | opList (now : Int) (tok : Token) (args : ListArgs)
  | opEdit (now : Int) (tok : Token) (tid : Int) (p : TxPayload)
  | opDelete (now : Int) (tok : Token) (tid : Int)
  | opMonthly (now : Int) (tok : Token) (year month : Int)
  | opBreakdown (now : Int) (tok : Token) (year month : Int)

/-- The state transition performed by one request. -/
def applyOp (st : DBState) : Op → DBState
  | .opRegister p hash nextId today => (register st p hash nextId today).2
  | .opLogout now tok => (logout st now tok).2
  | .opAdd now tok p today newId => (add_transaction st now tok p today newId).2
  | .opList now tok args => (get_transactions st now tok args).2
  | .opEdit now tok tid p => (edit_transaction st now tok tid p).2
  | .opDelete now tok tid => (delete_transaction st now tok tid).2
  | .opMonthly now tok year month => (monthly_summary st now tok year month).2
  | .opBreakdown now tok year month => (category_breakdown st now tok year month).2

/-- A whole trace of later requests. -/
def runOps (st : DBState) (ops : List Op) : DBState :=
  ops.foldl applyOp st

/-! ## Helper lemmas -/

/-- The blocklist loader finds `j` exactly when some `token_blocklist`
row holds `j`. -/
theorem check_if_token_revoked_iff (st : DBState) (j : String) :
    check_if_token_revoked st j = true ↔ j ∈ st.blocklist := by
  unfold check_if_token_revoked
  rw [Option.isSome_iff_exists]
  constructor
  · rintro ⟨x, hx⟩
    have hmem := List.mem_of_mem_filter (List.mem_of_mem_head? hx)
    have hx' := List.of_mem_filter (List.mem_of_mem_head? hx)
    simp at hx'
    simpa [hx'] using hmem
  · intro hmem
    have : j ∈ st.blocklist.filter (fun x => x = j) := by
      simp [List.mem_filter, hmem]
    rcases List.exists_mem_of_ne_nil _ (List.ne_nil_of_mem this) with ⟨y, _⟩
    cases hh : (st.blocklist.filter (fun x => x = j)).head? with
    | none => exact absurd (List.head?_eq_none_iff.mp hh) (List.ne_nil_of_mem this)
    | some y => exact ⟨y, rfl⟩

/-- The `register` never touches the `token_blocklist` table. -/
theorem register_blocklist (st : DBState) (p : UserPayload) (hash : String → String)
    (nextId : Int) (today : DateYMD) :
    (register st p hash nextId today).2.blocklist = st.blocklist := by
  unfold register
  repeat' split
  all_goals dsimp only
  all_goals try split
  all_goals rfl

/-- The `add_transaction` never touches the `token_blocklist` table. -/
theorem add_transaction_blocklist (st : DBState) (now : Int) (tok : Token) (p : TxPayload)
    (today : DateYMD) (newId : Int) :
    (add_transaction st now tok p today newId).2.blocklist = st.blocklist := by
  unfold add_transaction
  repeat' split
  all_goals dsimp only
  all_goals try split
  all_goals rfl

/-- The `get_transactions` never touches the `token_blocklist` table. -/
theorem get_transactions_blocklist (st : DBState) (now : Int) (tok : Token)
    (args : ListArgs) :
    (get_transactions st now tok args).2.blocklist = st.blocklist := by
  unfold get_transactions
  repeat' split
  all_goals rfl

/-- The `edit_transaction` never touches the `token_blocklist` table. -/
theorem edit_transaction_blocklist (st : DBState) (now : Int) (tok : Token) (tid : Int)
    (p : TxPayload) :
    (edit_transaction st now tok tid p).2.blocklist = st.blocklist := by
  unfold edit_transaction
  repeat' split
  all_goals dsimp only
  all_goals try split
  all_goals rfl

/-- The `delete_transaction` never touches the `token_blocklist` table. -/
theorem delete_transaction_blocklist (st : DBState) (now : Int) (tok : Token) (tid : Int) :
    (delete_transaction st now tok tid).2.blocklist = st.blocklist := by
  unfold delete_transaction
  repeat' split
  all_goals rfl

/-- The `monthly_summary` never touches the `token_blocklist` table. -/
theorem monthly_summary_blocklist (st : DBState) (now : Int) (tok : Token)
    (year month : Int) :
    (monthly_summary st now tok year month).2.blocklist = st.blocklist := by
  unfold monthly_summary
  repeat' split
  all_goals rfl

/-- The `category_breakdown` never touches the `token_blocklist` table. -/
theorem category_breakdown_blocklist (st : DBState) (now : Int) (tok : Token)
    (year month : Int) :
    (category_breakdown st now tok year month).2.blocklist = st.blocklist := by
  unfold category_breakdown
  repeat' split
  all_goals rfl

/-- The `logout` only ever appends to the `token_blocklist` table. -/
theorem logout_blocklist_superset (st : DBState) (now : Int) (tok : Token) (j : String)
    (h : j ∈ st.blocklist) : j ∈ (logout st now tok).2.blocklist := by
  unfold logout
  repeat' split
  all_goals simp_all [List.mem_append]

/-- No request ever deletes a `token_blocklist` row: the blocklist of
the successor state contains everything the old one did. -/
theorem blocklist_monotone (st : DBState) (op : Op) (j : String)
    (h : j ∈ st.blocklist) : j ∈ (applyOp st op).blocklist := by
  cases op with
  | opRegister p hash nextId today =>
      simp only [applyOp]; rw [register_blocklist]; exact h
  | opLogout now tok =>
      simp only [applyOp]; exact logout_blocklist_superset st now tok j h
  | opAdd now tok p today newId =>
      simp only [applyOp]; rw [add_transaction_blocklist]; exact h
  | opList now tok args =>
      simp only [applyOp]; rw [get_transactions_blocklist]; exact h
  | opEdit now tok tid p =>
      simp only [applyOp]; rw [edit_transaction_blocklist]; exact h
  | opDelete now tok tid =>
      simp only [applyOp]; rw [delete_transaction_blocklist]; exact h
  | opMonthly now tok year month =>
      simp only [applyOp]; rw [monthly_summary_blocklist]; exact h
  | opBreakdown now tok year month =>
      simp only [applyOp]; rw [category_breakdown_blocklist]; exact h

/-- Monotonicity through an arbitrary trace of later requests. -/
theorem blocklist_monotone_runOps (st : DBState) (ops : List Op) (j : String)
    (h : j ∈ st.blocklist) : j ∈ (runOps st ops).blocklist := by
  induction ops generalizing st with
  | nil => exact h
  | cons op ops ih => exact ih _ (blocklist_monotone st op j h)

/-- With a blocklisted `jti` the guard never yields an identity. -/
theorem jwt_required_of_revoked (st : DBState) (now : Int) (tok : Token)
    (h : tok.jti ∈ st.blocklist) :
    jwt_required st now tok = .expired ∨ jwt_required st now tok = .revoked := by
  unfold jwt_required
  split
  · exact Or.inl rfl
  · rw [(check_if_token_revoked_iff st tok.jti).mpr h]
    exact Or.inr rfl

/-- When the guard rejects, `logout` answers 401. -/
theorem logout_401 (st : DBState) (now : Int) (tok : Token)
    (h : jwt_required st now tok = .expired ∨ jwt_required st now tok = .revoked) :
    (logout st now tok).1.2 = 401 := by
  rcases h with h | h <;> simp [logout, h, expiredResp, revokedResp]

/-- When the guard rejects, `add_transaction` answers 401. -/
theorem add_transaction_401 (st : DBState) (now : Int) (tok : Token) (p : TxPayload)
    (today : DateYMD) (newId : Int)
    (h : jwt_required st now tok = .expired ∨ jwt_required st now tok = .revoked) :
    (add_transaction st now tok p today newId).1.2 = 401 := by
  rcases h with h | h <;> simp [add_transaction, h, expiredResp, revokedResp]

/-- When the guard rejects, `get_transactions` answers 401. -/
theorem get_transactions_401 (st : DBState) (now : Int) (tok : Token) (args : ListArgs)
    (h : jwt_required st now tok = .expired ∨ jwt_required st now tok = .revoked) :
    (get_transactions st now tok args).1.2 = 401 := by
  rcases h with h | h <;> simp [get_transactions, h, expiredResp, revokedResp]

/-- When the guard rejects, `edit_transaction` answers 401. -/
theorem edit_transaction_401 (st : DBState) (now : Int) (tok : Token) (tid : Int)
    (p : TxPayload)
    (h : jwt_required st now tok = .expired ∨ jwt_required st now tok = .revoked) :
    (edit_transaction st now tok tid p).1.2 = 401 := by
  rcases h with h | h <;> simp [edit_transaction, h, expiredResp, revokedResp]

/-- When the guard rejects, `delete_transaction` answers 401. -/
theorem delete_transaction_401 (st : DBState) (now : Int) (tok : Token) (tid : Int)
    (h : jwt_required st now tok = .expired ∨ jwt_required st now tok = .revoked) :
    (delete_transaction st now tok tid).1.2 = 401 := by
  rcases h with h | h <;> simp [delete_transaction, h, expiredResp, revokedResp]

/-- When the guard rejects, `monthly_summary` answers 401. -/
theorem monthly_summary_401 (st : DBState) (now : Int) (tok : Token) (year month : Int)
    (h : jwt_required st now tok = .expired ∨ jwt_required st now tok = .revoked) :
    (monthly_summary st now tok year month).1.2 = 401 := by
  rcases h with h | h <;> simp [monthly_summary, h, expiredResp, revokedResp]

/-- When the guard rejects, `category_breakdown` answers 401. -/
theorem category_breakdown_401 (st : DBState) (now : Int) (tok : Token) (year month : Int)
    (h : jwt_required st now tok = .expired ∨ jwt_required st now tok = .revoked) :
    (category_breakdown st now tok year month).1.2 = 401 := by
  rcases h with h | h <;> simp [category_breakdown, h, expiredResp, revokedResp]

/-- A 200 from `logout` means the guard passed, and the token's `jti`
is in the successor state's blocklist. -/
theorem logout_200_blocklist (st : DBState) (now : Int) (tok : Token)
    (h : (logout st now tok).1.2 = 200) :
    tok.jti ∈ (logout st now tok).2.blocklist := by
  cases hjw : jwt_required st now tok with
  | expired => simp [logout, hjw, expiredResp] at h
  | revoked => simp [logout, hjw, revokedResp] at h
  | ok email => simp [logout, hjw]

/-! ## Claim theorems -/

/-- Claim C1: For every token issued by login, once logout has been called
with that token (and returned success), every subsequent protected
operation — `add_transaction`, `get_transactions`, `edit_transaction`,
`delete_transaction`, both reports, and `logout` itself — presented with
that same token fails authentication with 401, whatever requests happen
in between: a revoked token never again authenticates successfully. -/
theorem revoked_token_never_authenticates
    (st : DBState) (now : Int) (tok : Token)
    (h200 : (logout st now tok).1.2 = 200)
    (ops : List Op) (st' : DBState)
    (hst' : st' = runOps (logout st now tok).2 ops) (now' : Int) :
    (∀ p today newId, (add_transaction st' now' tok p today newId).1.2 = 401) ∧
    (∀ args, (get_transactions st' now' tok args).1.2 = 401) ∧
    (∀ tid p, (edit_transaction st' now' tok tid p).1.2 = 401) ∧
    (∀ tid, (delete_transaction st' now' tok tid).1.2 = 401) ∧
    (∀ year month, (monthly_summary st' now' tok year month).1.2 = 401) ∧
    (∀ year month, (category_breakdown st' now' tok year month).1.2 = 401) ∧
    (logout st' now' tok).1.2 = 401 := by
  have hmem : tok.jti ∈ st'.blocklist := by
    rw [hst']
    exact blocklist_monotone_runOps _ ops _ (logout_200_blocklist st now tok h200)
  have hrej := jwt_required_of_revoked st' now' tok hmem
  exact ⟨fun p today newId => add_transaction_401 st' now' tok p today newId hrej,
         fun args => get_transactions_401 st' now' tok args hrej,
         fun tid p => edit_transaction_401 st' now' tok tid p hrej,
         fun tid => delete_transaction_401 st' now' tok tid hrej,
         fun year month => monthly_summary_401 st' now' tok year month hrej,
         fun year month => category_breakdown_401 st' now' tok year month hrej,
         logout_401 st' now' tok hrej⟩

/-- A concrete user for witnesses. -/
def exUser : UserRec := ⟨1, "alice", "alice@example.com", "hash1", ⟨2025, 1, 1⟩⟩

/-- A concrete, unexpired token for `exUser` (expiry instant 100). -/
def exTok : Token := ⟨"alice@example.com", "jti-1", 100⟩

/-- A concrete starting state: one user, nothing revoked, no
transactions. -/
def exSt : DBState := ⟨[exUser], [], []⟩

/-- Witness for C1 at a concrete run: after a successful logout and an
intervening report request, a later `add_transaction` with the old token
gets 401. -/
theorem revoked_token_never_authenticates_witness :
    (add_transaction (runOps (logout exSt 0 exTok).2 [Op.opMonthly 1 exTok 2025 1])
      2 exTok { amount := some 5, type := some "income", category := some "food" }
      ⟨2025, 1, 2⟩ 1).1.2 = 401 :=
  (revoked_token_never_authenticates exSt 0 exTok (by decide)
    [Op.opMonthly 1 exTok 2025 1] _ rfl 2).1
    { amount := some 5, type := some "income", category := some "food" } ⟨2025, 1, 2⟩ 1

/-- The `id AND user_id` lookup finds nothing when the caller owns no
transaction with that id — whether or not some other user does. -/
theorem findOwnedTx_none (st : DBState) (tid uid : Int)
    (h : ∀ t ∈ st.transactions, t.id = tid → t.user_id ≠ uid) :
    findOwnedTx st tid uid = none := by
  unfold findOwnedTx
  have : st.transactions.filter (fun t => t.id = tid ∧ t.user_id = uid) = [] := by
    rw [List.filter_eq_nil_iff]
    intro t ht
    simp only [decide_eq_true_eq, not_and]
    exact h t ht
  rw [this]
  rfl

/-- Claim C2: For an authenticated user and a transaction id, both
`edit_transaction` and `delete_transaction` return the very same 404
response — status and body — when the id does not exist at all (state
`st₁`) as when the id exists but belongs to a different user (state
`st₂`): the two cases are indistinguishable to the caller, and neither
call changes any state. -/
theorem foreign_and_missing_indistinguishable
    (st₁ st₂ : DBState) (now₁ now₂ : Int) (tok₁ tok₂ : Token) (tid : Int) (p : TxPayload)
    (u₁ u₂ : UserRec)
    (hja₁ : jwt_required st₁ now₁ tok₁ = .ok tok₁.identity)
    (hja₂ : jwt_required st₂ now₂ tok₂ = .ok tok₂.identity)
    (hu₁ : findUserByEmail st₁ tok₁.identity = some u₁)
    (hu₂ : findUserByEmail st₂ tok₂.identity = some u₂)
    (hp : txFieldErrors false p = [])
    (hmissing : ∀ t ∈ st₁.transactions, t.id ≠ tid)
    (hforeign : ∀ t ∈ st₂.transactions, t.id = tid → t.user_id ≠ u₂.user_id)
    (hexists : ∃ t ∈ st₂.transactions, t.id = tid) :
    (edit_transaction st₁ now₁ tok₁ tid p).1 = notFoundResp ∧
    (edit_transaction st₂ now₂ tok₂ tid p).1 = notFoundResp ∧
    (delete_transaction st₁ now₁ tok₁ tid).1 = notFoundResp ∧
    (delete_transaction st₂ now₂ tok₂ tid).1 = notFoundResp ∧
    (edit_transaction st₁ now₁ tok₁ tid p).1 = (edit_transaction st₂ now₂ tok₂ tid p).1 ∧
    (delete_transaction st₁ now₁ tok₁ tid).1 = (delete_transaction st₂ now₂ tok₂ tid).1 ∧
    (edit_transaction st₁ now₁ tok₁ tid p).2 = st₁ ∧
    (edit_transaction st₂ now₂ tok₂ tid p).2 = st₂ ∧
    (delete_transaction st₁ now₁ tok₁ tid).2 = st₁ ∧
    (delete_transaction st₂ now₂ tok₂ tid).2 = st₂ ∧
    notFoundResp.2 = 404 := by
  have hf₁ : findOwnedTx st₁ tid u₁.user_id = none :=
    findOwnedTx_none st₁ tid u₁.user_id (fun t ht hid _ => hmissing t ht hid)
  have hf₂ : findOwnedTx st₂ tid u₂.user_id = none :=
    findOwnedTx_none st₂ tid u₂.user_id hforeign
  have he₁ : edit_transaction st₁ now₁ tok₁ tid p = (notFoundResp, st₁) := by
    simp [edit_transaction, hja₁, hu₁, hp, hf₁]
  have he₂ : edit_transaction st₂ now₂ tok₂ tid p = (notFoundResp, st₂) := by
    simp [edit_transaction, hja₂, hu₂, hp, hf₂]
  have hd₁ : delete_transaction st₁ now₁ tok₁ tid = (notFoundResp, st₁) := by
    simp [delete_transaction, hja₁, hu₁, hf₁]
  have hd₂ : delete_transaction st₂ now₂ tok₂ tid = (notFoundResp, st₂) := by
    simp [delete_transaction, hja₂, hu₂, hf₂]
  rw [he₁, he₂, hd₁, hd₂]
  exact ⟨rfl, rfl, rfl, rfl, rfl, rfl, rfl, rfl, rfl, rfl, rfl⟩

/-- A second concrete user, owner of the "foreign" transaction. -/
def exUser2 : UserRec := ⟨2, "bob", "bob@example.com", "hash2", ⟨2025, 1, 1⟩⟩

/-- A state where transaction 7 exists but belongs to `exUser2`, while
the caller is `exUser`. -/
def exStForeign : DBState :=
  ⟨[exUser, exUser2], [], [⟨7, 2, 30, "expense", "food", ⟨2025, 1, 3⟩, "NA"⟩]⟩

/-- Witness for C2: `exUser` probing id 7 — absent in `exSt`, foreign in
`exStForeign` — receives the identical 404 response in both worlds. -/
theorem foreign_and_missing_indistinguishable_witness :
    (edit_transaction exSt 0 exTok 7 { amount := some 1 }).1 = notFoundResp ∧
    (edit_transaction exSt 0 exTok 7 { amount := some 1 }).1 =
      (edit_transaction exStForeign 0 exTok 7 { amount := some 1 }).1 :=
  have h := foreign_and_missing_indistinguishable exSt exStForeign 0 0 exTok exTok 7
    { amount := some 1 } exUser exUser (by decide) (by decide) (by rfl) (by rfl)
    (by decide) (by decide) (by decide) ⟨⟨7, 2, 30, "expense", "food", ⟨2025, 1, 3⟩, "NA"⟩, by decide⟩
  ⟨h.1, h.2.2.2.2.1⟩

/-- Spec-side formulation of the report sums: "sum of amounts where
type = income and sum where type = expense, filtered to transactions
owned by `user` whose date falls in the given calendar year and month". -/
def specMonthlySum (st : DBState) (uid : Int) (ty : String) (year month : Int) : Int :=
  ((st.transactions.filter
      (fun t => t.user_id = uid ∧ t.type = ty ∧ t.date.year = year ∧ t.date.month = month)).map
    (·.amount)).sum

/-- The `SUM ... or 0` equals the plain list sum (the `NULL` of an empty
aggregate becomes 0, which is also the empty sum). -/
theorem orZero_sqlSum (l : List Int) : orZero (sqlSum l) = l.sum := by
  cases l <;> simp [sqlSum, orZero]

/-- Claim C3: For every user and every (year, month), `monthly_summary`
returns income equal to the sum of amounts of that user's transactions
with type income and date in that calendar year and month, expense the
corresponding sum for type expense, and balance = income − expense; a
period with no transactions yields income = 0, expense = 0, balance = 0
with no error (status 200), and the state is unchanged. -/
theorem monthly_summary_correct
    (st : DBState) (now : Int) (tok : Token) (year month : Int) (u : UserRec)
    (hja : jwt_required st now tok = .ok tok.identity)
    (hu : findUserByEmail st tok.identity = some u) :
    monthly_summary st now tok year month =
      ((.obj [("monthly summary", .str (toString year ++ " - " ++ toString month)),
              ("income", .num (specMonthlySum st u.user_id "income" year month)),
              ("expense", .num (specMonthlySum st u.user_id "expense" year month)),
              ("balance", .num (specMonthlySum st u.user_id "income" year month -
                                specMonthlySum st u.user_id "expense" year month))],
        200), st) ∧
    ((∀ t ∈ st.transactions,
        t.user_id = u.user_id → ¬(t.date.year = year ∧ t.date.month = month)) →
      specMonthlySum st u.user_id "income" year month = 0 ∧
      specMonthlySum st u.user_id "expense" year month = 0 ∧
      specMonthlySum st u.user_id "income" year month -
        specMonthlySum st u.user_id "expense" year month = 0) := by
  constructor
  · simp [monthly_summary, hja, hu, orZero_sqlSum, monthTypeRows, specMonthlySum]
  · intro hempty
    have hz : ∀ ty, specMonthlySum st u.user_id ty year month = 0 := by
      intro ty
      unfold specMonthlySum
      have : st.transactions.filter
          (fun t => t.user_id = u.user_id ∧ t.type = ty ∧
            t.date.year = year ∧ t.date.month = month) = [] := by
        rw [List.filter_eq_nil_iff]
        intro t ht
        simp only [decide_eq_true_eq, not_and]
        intro huid hty hyear hmonth
        exact hempty t ht huid ⟨hyear, hmonth⟩
      rw [this]
      rfl
    exact ⟨hz "income", hz "expense", by rw [hz "income", hz "expense"]; rfl⟩

/-- Witness for C3 at a concrete input: `exUser` has no transactions in
2025-06, so the report is all zeros with status 200. -/
theorem monthly_summary_correct_witness :
    monthly_summary exSt 0 exTok 2025 6 =
      ((.obj [("monthly summary", .str "2025 - 6"),
              ("income", .num 0), ("expense", .num 0), ("balance", .num 0)], 200), exSt) :=
  (monthly_summary_correct exSt 0 exTok 2025 6 exUser (by decide) (by rfl)).1

/-- A well-formed registration payload reusing `exUser`'s email. -/
def dupEmailPayload : UserPayload :=
  { name := some "bob", email := some "alice@example.com", password := some "pw2" }

/-- Claim C4, counterexample: Registering a second user with an email that
already exists does NOT produce a 400 or 409 "ConflictError" response:
the handler has no duplicate check, the `unique` constraint makes the
commit raise, and the client sees the generic 500.  (No second user is
created, though: the state is unchanged.) -/
theorem register_duplicate_not_conflict_cex :
    (register exSt dupEmailPayload (fun s => String.append s "#h") 2 ⟨2025, 2, 2⟩).1.2 = 500 ∧
    (register exSt dupEmailPayload (fun s => String.append s "#h") 2 ⟨2025, 2, 2⟩).1.2 ≠ 400 ∧
    (register exSt dupEmailPayload (fun s => String.append s "#h") 2 ⟨2025, 2, 2⟩).1.2 ≠ 409 ∧
    (register exSt dupEmailPayload (fun s => String.append s "#h") 2 ⟨2025, 2, 2⟩).2 = exSt := by
  refine ⟨by decide, by decide, by decide, by decide⟩

/-- Claim C4, amended: A register request whose (otherwise valid) email
already belongs to an existing user does not create a second user —
email remains unique — but the failure surfaces as the generic 500
internal-server-error response (the uncaught `IntegrityError` of the
unique constraint), not as a 400/409 conflict response. -/
theorem register_duplicate_email_500
    (st : DBState) (p : UserPayload) (hash : String → String) (nextId : Int)
    (today : DateYMD) (em : String)
    (hval : userFieldErrors p = [])
    (hem : p.email = some em)
    (hdup : ∃ u ∈ st.users, u.email = em) :
    register st p hash nextId today = (serverErrorResp, st) ∧ serverErrorResp.2 = 500 := by
  refine ⟨?_, rfl⟩
  cases hn : p.name with
  | none => rw [userFieldErrors, hn] at hval; simp at hval
  | some nm =>
  cases hw : p.password with
  | none => rw [userFieldErrors, hn, hem, hw] at hval; simp at hval
  | some pw =>
  have hany : st.users.any (fun u => u.email = em) = true := by
    rw [List.any_eq_true]
    rcases hdup with ⟨u, hu, he⟩
    exact ⟨u, hu, by simp [he]⟩
  simp [register, hval, hn, hem, hw, hany]

/-- Witness for the amended C4 at the concrete duplicate. -/
theorem register_duplicate_email_500_witness :
    register exSt dupEmailPayload (fun s => String.append s "#h") 2 ⟨2025, 2, 2⟩ =
      (serverErrorResp, exSt) :=
  (register_duplicate_email_500 exSt dupEmailPayload (fun s => String.append s "#h") 2
    ⟨2025, 2, 2⟩ "alice@example.com" (by decide) (by decide)
    ⟨exUser, by decide, by decide⟩).1

/-- For a payload carrying only schema fields, the full (`required`)
validation passes exactly when: `amount` is present and at least 1,
`type` is present and one of income/expense, and `category` is present. -/
theorem txFieldErrors_true_nil_iff (p : TxPayload)
    (hid : p.id = none) (huid : p.user_id = none) (hunk : p.unknown = []) :
    txFieldErrors true p = [] ↔
      ((∃ a, p.amount = some a ∧ 1 ≤ a) ∧
       (p.type = some "income" ∨ p.type = some "expense") ∧
       (∃ c, p.category = some c)) := by
  cases ha : p.amount <;> cases ht : p.type <;> cases hc : p.category <;>
    simp [txFieldErrors, hid, huid, hunk, ha, ht, hc]
  all_goals tauto

/-- Claim C5: With an authenticated caller, `add_transaction` returns 400
and stores nothing if and only if the request body (carrying only the
schema's fields) violates the rules: `amount` present with `amount > 0`,
`type` present in {income, expense}, `category` present.  In particular
amount 0 or negative fails, amount 1 succeeds, type "loan" fails, types
"income"/"expense" succeed. -/
theorem add_transaction_400_iff
    (st : DBState) (now : Int) (tok : Token) (p : TxPayload) (today : DateYMD)
    (newId : Int) (u : UserRec)
    (hja : jwt_required st now tok = .ok tok.identity)
    (hu : findUserByEmail st tok.identity = some u)
    (hid : p.id = none) (huid : p.user_id = none) (hunk : p.unknown = []) :
    ((add_transaction st now tok p today newId).1.2 = 400 ∧
     (add_transaction st now tok p today newId).2 = st) ↔
      ¬((∃ a, p.amount = some a ∧ 1 ≤ a) ∧
        (p.type = some "income" ∨ p.type = some "expense") ∧
        (∃ c, p.category = some c)) := by
  by_cases hok : txFieldErrors true p = []
  · have hG := (txFieldErrors_true_nil_iff p hid huid hunk).mp hok
    obtain ⟨⟨a, ha, _⟩, hty, ⟨c, hc⟩⟩ := hG
    have hty' : ∃ ty, p.type = some ty := by
      rcases hty with h | h
      · exact ⟨"income", h⟩
      · exact ⟨"expense", h⟩
    obtain ⟨ty, hty2⟩ := hty'
    constructor
    · rintro ⟨h400, -⟩
      exfalso
      have h201 : (add_transaction st now tok p today newId).1.2 = 201 := by
        simp [add_transaction, hja, hu, hok, ha, hty2, hc]
      rw [h400] at h201
      exact absurd h201 (by decide)
    · intro hbad
      exact absurd ((txFieldErrors_true_nil_iff p hid huid hunk).mp hok) hbad
  · constructor
    · intro _
      exact fun hG => hok ((txFieldErrors_true_nil_iff p hid huid hunk).mpr hG)
    · intro _
      constructor <;> simp [add_transaction, hja, hu, hok, validationResp]

/-- Witness for C5: amount 0 is rejected with 400 and nothing is
stored. -/
theorem add_transaction_400_iff_witness :
    (add_transaction exSt 0 exTok
        { amount := some 0, type := some "income", category := some "food" }
        ⟨2025, 1, 2⟩ 1).1.2 = 400 ∧
    (add_transaction exSt 0 exTok
        { amount := some 0, type := some "income", category := some "food" }
        ⟨2025, 1, 2⟩ 1).2 = exSt :=
  (add_transaction_400_iff exSt 0 exTok
      { amount := some 0, type := some "income", category := some "food" }
      ⟨2025, 1, 2⟩ 1 exUser (by decide) (by rfl) rfl rfl rfl).mpr
    (by rintro ⟨⟨a, ha, h1⟩, -, -⟩; simp at ha; omega)

/-- If the query's first hit is `t`, mutating the returned row object is
a point update of the table: position `i` holds `t` and only position
`i` changes. -/
theorem updateFirst_eq_set {α} (q : α → Bool) (f : α → α) (l : List α) (t : α)
    (h : (l.filter q).head? = some t) :
    ∃ i, l.get? i = some t ∧ q t = true ∧ updateFirst q f l = l.set i (f t) := by
  induction l with
  | nil => simp at h
  | cons x xs ih =>
    by_cases hx : q x = true
    · rw [List.filter_cons_of_pos hx] at h
      simp only [List.head?_cons, Option.some.injEq] at h
      subst h
      refine ⟨0, rfl, hx, ?_⟩
      simp [updateFirst, hx]
    · rw [List.filter_cons_of_neg (by simpa using hx)] at h
      obtain ⟨i, h1, h2, h3⟩ := ih h
      refine ⟨i + 1, by simpa using h1, h2, ?_⟩
      simp [updateFirst, hx, h3]

/-- Validation success (with either `required` mode) forces the
`dump_only` keys and any unknown key to be absent from the body. -/
theorem txFieldErrors_nil_no_dump_only (required : Bool) (p : TxPayload)
    (h : txFieldErrors required p = []) :
    p.id = none ∧ p.user_id = none ∧ p.unknown = [] := by
  refine ⟨?_, ?_, ?_⟩
  · cases hi : p.id with
    | none => rfl
    | some v => rw [txFieldErrors, hi] at h; simp at h
  · cases hi : p.user_id with
    | none => rfl
    | some v => rw [txFieldErrors, hi] at h; simp at h
  · cases hk : p.unknown with
    | nil => rfl
    | cons a l => rw [txFieldErrors, hk] at h; simp at h

/-- Claim C6: For every owned transaction and every valid partial-update
body, `edit_transaction` updates exactly the fields present in the body:
the store changes at one position only (every other transaction is
untouched, as are the user and blocklist tables), the edited row keeps
its `id`, owner, and every field the body omits, takes the body's value
for every field it contains, and the response is the updated record with
200. -/
theorem edit_updates_only_provided_fields
    (st : DBState) (now : Int) (tok : Token) (tid : Int) (p : TxPayload)
    (u : UserRec) (t : TransactionRec)
    (hja : jwt_required st now tok = .ok tok.identity)
    (hu : findUserByEmail st tok.identity = some u)
    (hp : txFieldErrors false p = [])
    (hfind : findOwnedTx st tid u.user_id = some t) :
    (edit_transaction st now tok tid p).1 = (txDump (applyPayload t p), 200) ∧
    (∃ i, st.transactions.get? i = some t ∧
      (edit_transaction st now tok tid p).2.transactions =
        st.transactions.set i (applyPayload t p) ∧
      ∀ j, j ≠ i → (edit_transaction st now tok tid p).2.transactions.get? j =
        st.transactions.get? j) ∧
    (edit_transaction st now tok tid p).2.users = st.users ∧
    (edit_transaction st now tok tid p).2.blocklist = st.blocklist ∧
    (applyPayload t p).id = t.id ∧
    (applyPayload t p).user_id = t.user_id ∧
    (applyPayload t p).amount = p.amount.getD t.amount ∧
    (applyPayload t p).type = p.type.getD t.type ∧
    (applyPayload t p).category = p.category.getD t.category ∧
    (applyPayload t p).date = p.date.getD t.date ∧
    (applyPayload t p).note = p.note.getD t.note := by
  obtain ⟨hid, huid, -⟩ := txFieldErrors_nil_no_dump_only false p hp
  have hres : edit_transaction st now tok tid p =
      ((txDump (applyPayload t p), 200),
       { st with transactions := updateFirst (fun t => t.id = tid ∧ t.user_id = u.user_id) (fun t => applyPayload t p) st.transactions }) := by
    simp [edit_transaction, hja, hu, hp, hfind]
  obtain ⟨i, hget, -, hset⟩ :=
    updateFirst_eq_set ((fun t => t.id = tid ∧ t.user_id = u.user_id) : TransactionRec → Bool)
      (fun t => applyPayload t p) st.transactions t
      (by rw [findOwnedTx] at hfind; exact hfind)
  refine ⟨by rw [hres], ⟨i, hget, ?_, ?_⟩, by rw [hres], by rw [hres],
          by simp [applyPayload, hid], by simp [applyPayload, huid],
          rfl, rfl, rfl, rfl, rfl⟩
  · rw [hres]; exact hset
  · intro j hj
    rw [hres]
    simp only
    rw [hset]
    exact List.get?_set_ne _ _ (fun hij => hj hij.symm)

/-- A state where `exUser` owns transaction 1. -/
def exStOwned : DBState :=
  ⟨[exUser, exUser2], [], [⟨1, 1, 50, "expense", "food", ⟨2025, 1, 3⟩, "hello"⟩]⟩

/-- Witness for C6: editing only the note of the owned transaction 1
returns the record with just the note replaced. -/
theorem edit_updates_only_provided_fields_witness :
    (edit_transaction exStOwned 0 exTok 1 { note := some "updated" }).1 =
      (txDump (applyPayload ⟨1, 1, 50, "expense", "food", ⟨2025, 1, 3⟩, "hello"⟩
        { note := some "updated" }), 200) :=
  (edit_updates_only_provided_fields exStOwned 0 exTok 1 { note := some "updated" }
    exUser ⟨1, 1, 50, "expense", "food", ⟨2025, 1, 3⟩, "hello"⟩
    (by decide) (by rfl) (by rfl) (by rfl)).1

/-- Requesting a page strictly beyond `pages` yields no items but the
same totals (`error_out = False` never aborts). -/
theorem paginate_past_last_page (l : List TransactionRec) (page per_page : Int)
    (hpage : 1 ≤ page) (hper : 1 ≤ per_page)
    (hout : (((l.length + per_page.toNat - 1) / per_page.toNat : Nat) : Int) < page) :
    paginate l page per_page =
      { items := [], total := l.length, page := page,
        pages := (l.length + per_page.toNat - 1) / per_page.toNat,
        per_page := per_page } := by
  have h1 : ¬(page < 1) := by omega
  have h2 : ¬(per_page < 1) := by omega
  have hk1 : 1 ≤ per_page.toNat := by omega
  have hdivlt : (l.length + per_page.toNat - 1) / per_page.toNat < page.toNat := by omega
  have hmul : l.length + per_page.toNat - 1 < page.toNat * per_page.toNat :=
    (Nat.div_lt_iff_lt_mul (by omega)).mp hdivlt
  have hge : l.length ≤ (page - 1).toNat * per_page.toNat := by
    have heq : (page - 1).toNat = page.toNat - 1 := by omega
    rw [heq, Nat.sub_mul, one_mul]
    generalize hm : page.toNat * per_page.toNat = m at hmul ⊢
    omega
  have hnil : l.drop ((page - 1).toNat * per_page.toNat) = [] :=
    List.drop_eq_nil_of_le hge
  unfold paginate
  dsimp only
  rw [if_neg h1, if_neg h2, hnil, List.take_nil]

/-- Claim C7: For every user and every filter combination, a
`get_transactions` request whose page number lies past the last page
answers 200 with an empty `transactions` list while still reporting the
full filtered count as `total` and the correct `pages`; nothing in the
state changes. -/
theorem out_of_range_page_empty_list
    (st : DBState) (now : Int) (tok : Token) (args : ListArgs) (u : UserRec)
    (hja : jwt_required st now tok = .ok tok.identity)
    (hu : findUserByEmail st tok.identity = some u)
    (hpage : 1 ≤ args.page) (hper : 1 ≤ args.per_page)
    (hout : ((((txQuery st u.user_id args).length + args.per_page.toNat - 1) / args.per_page.toNat : Nat) : Int) < args.page) :
    get_transactions st now tok args =
      ((.obj [("transactions", .arr []),
              ("total", .num ((txQuery st u.user_id args).length : Int)),
              ("page", .num args.page),
              ("pages", .num ((((txQuery st u.user_id args).length + args.per_page.toNat - 1) / args.per_page.toNat : Nat) : Int)),
              ("per_page", .num args.per_page)], 200), st) := by
  have hpag := paginate_past_last_page (txQuery st u.user_id args) args.page args.per_page
    hpage hper hout
  simp [get_transactions, hja, hu, hpag]

/-- Witness for C7, the spec's own example: one owned transaction,
`page = 2, per_page = 1` gives an empty list with `total = 1`,
`pages = 1`. -/
theorem out_of_range_page_empty_list_witness :
    get_transactions exStOwned 0 exTok { page := 2, per_page := 1 } =
      ((.obj [("transactions", .arr []),
              ("total", .num 1), ("page", .num 2), ("pages", .num 1),
              ("per_page", .num 1)], 200), exStOwned) := by
  rw [out_of_range_page_empty_list exStOwned 0 exTok { page := 2, per_page := 1 } exUser
    (by decide) (by rfl) (by decide) (by decide) (by decide)]
  rfl

/-- Claim C8, counterexample: Logout is NOT idempotent for the caller: the
second logout with the same (still unexpired) token is rejected by the
`@jwt_required()` guard — whose blocklist loader now finds the jti — with
401, not answered with success. -/
theorem logout_repeat_success_cex :
    (logout exSt 0 exTok).1.2 = 200 ∧
    (logout (logout exSt 0 exTok).2 1 exTok).1.2 = 401 ∧
    (logout (logout exSt 0 exTok).2 1 exTok).1.2 ≠ 200 := by
  refine ⟨by decide, by decide, by decide⟩

/-- Claim C8, amended: A first successful logout revokes the token; every
repeated logout with that same token then fails with 401 (the guard runs
before the insert), and in particular adds no duplicate revocation row —
the state is unchanged. -/
theorem logout_repeat_fails_401
    (st : DBState) (now now' : Int) (tok : Token)
    (h200 : (logout st now tok).1.2 = 200) :
    (logout (logout st now tok).2 now' tok).1.2 = 401 ∧
    (logout (logout st now tok).2 now' tok).2 = (logout st now tok).2 := by
  have hmem := logout_200_blocklist st now tok h200
  have hrej := jwt_required_of_revoked (logout st now tok).2 now' tok hmem
  refine ⟨logout_401 _ now' tok hrej, ?_⟩
  rcases hrej with h | h
  all_goals
    generalize hst1 : (logout st now tok).2 = st1 at h ⊢
    simp [logout, h]

/-- Witness for the amended C8 at the concrete run. -/
theorem logout_repeat_fails_401_witness :
    (logout (logout exSt 0 exTok).2 1 exTok).1.2 = 401 ∧
    (logout (logout exSt 0 exTok).2 1 exTok).2 = (logout exSt 0 exTok).2 :=
  logout_repeat_fails_401 exSt 0 1 exTok (by decide)

/-- The `transaction_schema.dump(t)` re-submitted verbatim as a request
body: every dumped key present, including the `dump_only` `id` and
`user_id`. -/
def dumpPayload (t : TransactionRec) : TxPayload :=
  { amount := some t.amount, type := some t.type, category := some t.category,
    date := some t.date, note := some t.note, id := some t.id, user_id := some t.user_id }

/-- The dump restricted to the schema's loadable keys (without `id` and
`user_id`). -/
def loadablePayload (t : TransactionRec) : TxPayload :=
  { amount := some t.amount, type := some t.type, category := some t.category,
    date := some t.date, note := some t.note }

/-- The transaction `add_transaction` creates in the C9 counterexample
run. -/
def exCreated : TransactionRec := ⟨1, 1, 50, "expense", "food", ⟨2025, 1, 3⟩, "x"⟩

/-- The state after that `add_transaction`. -/
def exStAfterAdd : DBState :=
  (add_transaction exSt 0 exTok
    { amount := some 50, type := some "expense", category := some "food",
      date := some ⟨2025, 1, 3⟩, note := some "x" } ⟨2025, 1, 3⟩ 1).2

/-- Claim C9, counterexample: The add succeeds and stores `exCreated`, but
re-submitting its dumped representation verbatim as an edit does NOT
succeed: the dump carries the `dump_only` fields `id` and `user_id`,
which the edit validation rejects as unknown, so the edit returns 400. -/
theorem roundtrip_verbatim_cex :
    (add_transaction exSt 0 exTok
      { amount := some 50, type := some "expense", category := some "food",
        date := some ⟨2025, 1, 3⟩, note := some "x" } ⟨2025, 1, 3⟩ 1).1.2 = 201 ∧
    exStAfterAdd.transactions = [exCreated] ∧
    (edit_transaction exStAfterAdd 1 exTok 1 (dumpPayload exCreated)).1.2 = 400 ∧
    (edit_transaction exStAfterAdd 1 exTok 1 (dumpPayload exCreated)).1.2 ≠ 200 := by
  refine ⟨by decide, by decide, by decide, by decide⟩

/-- The `l.set i a = l` when position `i` already holds `a`. -/
theorem set_self_of_get? {α} (l : List α) (i : Nat) (a : α)
    (h : l.get? i = some a) : l.set i a = l := by
  induction l generalizing i with
  | nil => simp at h
  | cons x xs ih =>
    cases i with
    | zero =>
        simp only [List.get?_cons_zero, Option.some.injEq] at h
        simp [h]
    | succ n =>
        simp only [List.get?_cons_succ] at h
        simp [List.set, ih n h]

/-- Claim C9, amended: Re-submitting a stored transaction's dumped
representation verbatim as an edit fails with 400 (its `dump_only` `id`
and `user_id` keys are rejected as unknown fields) and leaves the state
unchanged; re-submitting just its loadable fields succeeds with the
unchanged record and leaves every stored value identical. -/
theorem roundtrip_loadable_fields_identity
    (st : DBState) (now : Int) (tok : Token) (tid : Int) (u : UserRec)
    (t : TransactionRec)
    (hja : jwt_required st now tok = .ok tok.identity)
    (hu : findUserByEmail st tok.identity = some u)
    (hfind : findOwnedTx st tid u.user_id = some t)
    (hamt : 1 ≤ t.amount)
    (hty : t.type = "income" ∨ t.type = "expense") :
    edit_transaction st now tok tid (loadablePayload t) = ((txDump t, 200), st) ∧
    (edit_transaction st now tok tid (dumpPayload t)).1.2 = 400 ∧
    (edit_transaction st now tok tid (dumpPayload t)).2 = st := by
  have happly : applyPayload t (loadablePayload t) = t := rfl
  have hval : txFieldErrors false (loadablePayload t) = [] := by
    have hlt : ¬(t.amount < 1) := by omega
    simp [txFieldErrors, loadablePayload, hlt, hty]
  have hne : txFieldErrors false (dumpPayload t) ≠ [] := by
    apply List.ne_nil_of_mem (a := ("id", "Unknown field."))
    simp [txFieldErrors, dumpPayload]
  refine ⟨?_, ?_, ?_⟩
  · obtain ⟨i, hget, -, hset⟩ :=
      updateFirst_eq_set ((fun x => x.id = tid ∧ x.user_id = u.user_id) : TransactionRec → Bool)
        (fun x => applyPayload x (loadablePayload t)) st.transactions t
        (by rw [findOwnedTx] at hfind; exact hfind)
    have hkeep : st.transactions.set i (applyPayload t (loadablePayload t)) = st.transactions := by
      rw [happly]; exact set_self_of_get? st.transactions i t hget
    have hres : edit_transaction st now tok tid (loadablePayload t) =
        ((txDump (applyPayload t (loadablePayload t)), 200),
         { st with transactions := updateFirst (fun x => x.id = tid ∧ x.user_id = u.user_id) (fun x => applyPayload x (loadablePayload t)) st.transactions }) := by
      simp [edit_transaction, hja, hu, hval, hfind]
    rw [hres, hset, hkeep, happly]
  · simp [edit_transaction, hja, hne, validationResp]
  · simp [edit_transaction, hja, hne, validationResp]

/-- Witness for the amended C9: re-submitting the loadable fields of the
stored transaction 1 returns it unchanged with 200. -/
theorem roundtrip_loadable_fields_identity_witness :
    edit_transaction exStOwned 0 exTok 1
        (loadablePayload ⟨1, 1, 50, "expense", "food", ⟨2025, 1, 3⟩, "hello"⟩) =
      ((txDump ⟨1, 1, 50, "expense", "food", ⟨2025, 1, 3⟩, "hello"⟩, 200), exStOwned) :=
  (roundtrip_loadable_fields_identity exStOwned 0 exTok 1 exUser
    ⟨1, 1, 50, "expense", "food", ⟨2025, 1, 3⟩, "hello"⟩
    (by decide) (by rfl) (by rfl) (by decide) (Or.inr rfl)).1

/-- Claim C10: A request body for `add_transaction` containing an `id` or
`user_id` key is rejected with 400 as a validation error (those fields
are `dump_only`) and stores nothing; and whenever `add_transaction`
succeeds (201), the created transaction's owner is `u.user_id`, the id
of the user row resolved from the token's identity — never a value from
the request body. -/
theorem owner_comes_from_token
    (st : DBState) (now : Int) (tok : Token) (p : TxPayload) (today : DateYMD)
    (newId : Int) (u : UserRec)
    (hja : jwt_required st now tok = .ok tok.identity)
    (hu : findUserByEmail st tok.identity = some u) :
    ((p.id ≠ none ∨ p.user_id ≠ none) →
      (add_transaction st now tok p today newId).1.2 = 400 ∧
      (add_transaction st now tok p today newId).2 = st) ∧
    ((add_transaction st now tok p today newId).1.2 = 201 →
      ∃ a ty c, p.amount = some a ∧ p.type = some ty ∧ p.category = some c ∧
        (add_transaction st now tok p today newId).2.transactions =
          st.transactions ++
            [⟨newId, u.user_id, a, ty, c, p.date.getD today, p.note.getD "NA"⟩]) := by
  constructor
  · intro h
    have hne : txFieldErrors true p ≠ [] := by
      rcases h with h | h
      · cases hi : p.id with
        | none => exact absurd hi h
        | some v =>
            apply List.ne_nil_of_mem (a := ("id", "Unknown field."))
            simp [txFieldErrors, hi]
      · cases hi : p.user_id with
        | none => exact absurd hi h
        | some v =>
            apply List.ne_nil_of_mem (a := ("user_id", "Unknown field."))
            simp [txFieldErrors, hi]
    constructor <;> simp [add_transaction, hja, hne, validationResp]
  · intro h201
    by_cases hok : txFieldErrors true p = []
    · cases ha : p.amount with
      | none => rw [txFieldErrors, ha] at hok; simp at hok
      | some a =>
        cases ht : p.type with
        | none => rw [txFieldErrors, ha, ht] at hok; simp at hok
        | some ty =>
          cases hc : p.category with
          | none => rw [txFieldErrors, ha, ht, hc] at hok; simp at hok
          | some c =>
              refine ⟨a, ty, c, rfl, rfl, rfl, ?_⟩
              simp [add_transaction, hja, hu, hok, ha, ht, hc]
    · exfalso
      have h400 : (add_transaction st now tok p today newId).1.2 = 400 := by
        simp [add_transaction, hja, hok, validationResp]
      rw [h400] at h201
      exact absurd h201 (by decide)

/-- Witness for C10: a body smuggling `user_id := 2` is rejected with
400 and the store is untouched. -/
theorem owner_comes_from_token_witness :
    (add_transaction exSt 0 exTok
      { amount := some 9, type := some "income", category := some "food",
        user_id := some 2 } ⟨2025, 1, 2⟩ 1).1.2 = 400 ∧
    (add_transaction exSt 0 exTok
      { amount := some 9, type := some "income", category := some "food",
        user_id := some 2 } ⟨2025, 1, 2⟩ 1).2 = exSt :=
  (owner_comes_from_token exSt 0 exTok
    { amount := some 9, type := some "income", category := some "food",
      user_id := some 2 } ⟨2025, 1, 2⟩ 1 exUser (by decide) (by rfl)).1
    (Or.inr (by decide))

end FinanceTracker
